import Mathlib

/-!
Verification development for the SQLite data-access layer of the
belajar-db-sqlite repository (`utils/database.ts`).

The layer is embedded shallowly:
* the SQLite `LIKE` operator (as used by the `search*` functions with
  `'%' ++ keyword ++ '%'` patterns) is modelled by `likeMatch`;
* each table is a list of rows plus an auto-increment counter;
* each CRUD function of the source is a Lean function of the same name;
* failing statements (UNIQUE-constraint violations) return `Except.error`
  carrying the SQLite error message, mirroring the thrown exceptions;
* the initialization guard (`initDatabase` / `getDatabase`) is modelled as a
  state machine driven by caller/resolution events, with the outcome of the
  underlying "open + create tables" attempt supplied by an environment.
-/

namespace BelajarDB

/-! ### SQLite LIKE semantics

SQLite's `LIKE` is case-insensitive for the ASCII range only: `A`-`Z` are
folded to lower case before comparison.  `%` matches any (possibly empty)
sequence of characters and `_` matches exactly one character; the queries in
the source use no `ESCAPE` clause. -/

/-- ASCII-only case folding, exactly as SQLite's `LIKE` applies it. -/
def likeFold (c : Char) : Char :=
  if 'A' ≤ c ∧ c ≤ 'Z' then Char.ofNat (c.toNat + 32) else c

/-- Predicate `likeMatch pat s`: does the `LIKE` pattern `pat` match the string `s`?
`%` matches any suffix continuation, `_` one character, and any other
character matches case-insensitively (ASCII folding). -/
def likeMatch : List Char → List Char → Bool
  | [], s => s.isEmpty
  | p :: ps, s =>
    if p = '%' then s.tails.any (fun t => likeMatch ps t)
    else
      match s with
      | [] => false
      | c :: cs => ((p == '_') || (likeFold p == likeFold c)) && likeMatch ps cs

/-- The pattern `'%' ++ kw ++ '%'` built by every `search*` function
(template literal `%${keyword}%`). -/
def likePattern (kw : String) : List Char := '%' :: (kw.data ++ ['%'])

/-- One column filter `col LIKE '%kw%'` of the search queries. -/
def likeContains (kw field : String) : Bool := likeMatch (likePattern kw) field.data

/-- Tests whether `sub` occurs as a contiguous sublist of `hay`. -/
def subAt (hay sub : List Char) : Bool := hay.tails.any (fun t => t.take sub.length == sub)

/-- Case-sensitive substring test (JavaScript `String.prototype.includes`). -/
def strIncludes (hay sub : String) : Bool := subAt hay.data sub.data

/-- Case-insensitive (ASCII) substring containment: the specification's
"contains the keyword as a case-insensitive substring". -/
def containsCI (hay sub : String) : Bool :=
  subAt (hay.data.map likeFold) (sub.data.map likeFold)

/-- A keyword free of the `LIKE` metacharacters `%` and `_`. -/
def NoWild (kw : String) : Prop := ('%' ∉ kw.data) ∧ ('_' ∉ kw.data)

instance (kw : String) : Decidable (NoWild kw) := by
  unfold NoWild; infer_instance

/-! #### LIKE facts -/

theorem any_congr_on {α : Type} {l : List α} {p q : α → Bool} (h : ∀ x ∈ l, p x = q x) :
    l.any p = l.any q := by
  induction l with
  | nil => rfl
  | cons a t ih =>
    simp only [List.any_cons, h a (List.mem_cons_self a t),
      ih (fun x hx => h x (List.mem_cons_of_mem _ hx))]

theorem likeMatch_nil_percent : ∀ t : List Char, likeMatch ['%'] t = true := by
  intro t
  show (if ('%' : Char) = '%' then t.tails.any (fun u => likeMatch [] u) else _) = true
  rw [if_pos rfl, List.any_eq_true]
  exact ⟨[], (List.mem_tails _ _).2 List.nil_suffix, rfl⟩

/-- A wildcard-free literal pattern followed by `%` matches `t` exactly when
the folded pattern is a prefix of the folded `t`. -/
theorem likeMatch_literal_percent (kw : List Char) (hp : '%' ∉ kw) (hu : '_' ∉ kw) :
    ∀ t : List Char,
      likeMatch (kw ++ ['%']) t = ((t.map likeFold).take kw.length == kw.map likeFold) := by
  induction kw with
  | nil =>
    intro t
    simp [likeMatch_nil_percent t]
  | cons k ks ih =>
    have hk1 : k ≠ '%' := fun h => hp (h ▸ List.mem_cons_self k ks)
    have hk2 : k ≠ '_' := fun h => hu (h ▸ List.mem_cons_self k ks)
    have hp' : '%' ∉ ks := fun h => hp (List.mem_cons_of_mem _ h)
    have hu' : '_' ∉ ks := fun h => hu (List.mem_cons_of_mem _ h)
    intro t
    cases t with
    | nil =>
      show (if k = '%' then _ else false) = _
      rw [if_neg hk1]
      simp
    | cons c cs =>
      show (if k = '%' then _ else ((k == '_') || (likeFold k == likeFold c)) && likeMatch (ks ++ ['%']) cs) = _
      rw [if_neg hk1, ih hp' hu' cs]
      have hk2' : (k == '_') = false := beq_eq_false_iff_ne.2 hk2
      simp only [hk2', Bool.false_or, List.map_cons, List.length_cons, List.take_succ_cons,
        List.cons_beq_cons, Bool.beq_comm]

/-- The search pattern `%kw%` (for a wildcard-free `kw`) matches a string
exactly when the folded keyword occurs inside the folded string. -/
theorem likeMatch_pattern_eq_subAt (kw : String) (h : NoWild kw) (s : String) :
    likeContains kw s = subAt (s.data.map likeFold) (kw.data.map likeFold) := by
  unfold likeContains likePattern subAt
  show (if ('%' : Char) = '%' then s.data.tails.any (fun t => likeMatch (kw.data ++ ['%']) t) else _) = _
  rw [if_pos rfl, List.map_tails, List.any_map]
  apply any_congr_on
  intro t _
  rw [likeMatch_literal_percent kw.data h.1 h.2 t]
  simp [Function.comp]

/-- Lemma: `containsCI` restated through `likeContains` on wildcard-free keywords. -/
theorem likeContains_eq_containsCI (kw : String) (h : NoWild kw) (s : String) :
    likeContains kw s = containsCI s kw :=
  likeMatch_pattern_eq_subAt kw h s

/-! ### Data model

Rows carry the storage-assigned surrogate `id` and `created_at` (the
`DATETIME DEFAULT CURRENT_TIMESTAMP` column); inputs are the `Omit<_, 'id'>`
payloads of the source.  A table is its list of rows (in rowid order) plus
the auto-increment counter.  Statement failures (UNIQUE violations) are
`Except.error` values carrying the SQLite message. -/

structure MahasiswaRow where
  id : Nat
  nim : String
  nama : String
  jurusan : String
  fakultas : Option String
  semester : Int
  email : String
  created_at : String
deriving DecidableEq

structure MahasiswaInput where
  nim : String
  nama : String
  jurusan : String
  fakultas : Option String
  semester : Int
  email : String
deriving DecidableEq

structure MahasiswaTable where
  rows : List MahasiswaRow
  nextId : Nat
deriving DecidableEq

structure ProdiRow where
  id : Nat
  kode_prodi : String
  nama_prodi : String
  fakultas : String
  akreditasi : Option String
  deskripsi : Option String
  created_at : String
deriving DecidableEq

structure ProdiInput where
  kode_prodi : String
  nama_prodi : String
  fakultas : String
  akreditasi : Option String
  deskripsi : Option String
deriving DecidableEq

structure ProdiTable where
  rows : List ProdiRow
  nextId : Nat
deriving DecidableEq

structure FakultasRow where
  id : Nat
  kode_fakultas : String
  nama_fakultas : String
  deskripsi : Option String
  created_at : String
deriving DecidableEq

structure FakultasInput where
  kode_fakultas : String
  nama_fakultas : String
  deskripsi : Option String
deriving DecidableEq

structure FakultasTable where
  rows : List FakultasRow
  nextId : Nat
deriving DecidableEq

structure UserRow where
  id : Nat
  name : String
  email : String
  password : String
  created_at : String
deriving DecidableEq

structure UserInput where
  name : String
  email : String
  password : String
deriving DecidableEq

structure UsersTable where
  rows : List UserRow
  nextId : Nat
deriving DecidableEq

/-- JavaScript `x || null` on an optional string field: `undefined`, `null`
and the empty string are all falsy, so each becomes SQL `NULL`. -/
def jsOrNull : Option String → Option String
  | none => none
  | some s => if s = "" then none else some s

/-! ### ORDER BY

`ORDER BY <name> ASC` under SQLite's default BINARY collation compares
UTF-8 bytes, which coincides with Lean's lexicographic `String` order; a
plain table scan yields rowid order among equal keys, i.e. a stable sort. -/

def mahasiswaLe (a b : MahasiswaRow) : Prop := a.nama ≤ b.nama

instance : DecidableRel mahasiswaLe :=
  fun a b => inferInstanceAs (Decidable (a.nama ≤ b.nama))

instance : IsTotal MahasiswaRow mahasiswaLe := ⟨fun a b => le_total a.nama b.nama⟩

instance : IsTrans MahasiswaRow mahasiswaLe := ⟨fun _ _ _ h1 h2 => le_trans h1 h2⟩

def prodiLe (a b : ProdiRow) : Prop := a.nama_prodi ≤ b.nama_prodi

instance : DecidableRel prodiLe :=
  fun a b => inferInstanceAs (Decidable (a.nama_prodi ≤ b.nama_prodi))

instance : IsTotal ProdiRow prodiLe := ⟨fun a b => le_total a.nama_prodi b.nama_prodi⟩

instance : IsTrans ProdiRow prodiLe := ⟨fun _ _ _ h1 h2 => le_trans h1 h2⟩

def fakultasLe (a b : FakultasRow) : Prop := a.nama_fakultas ≤ b.nama_fakultas

instance : DecidableRel fakultasLe :=
  fun a b => inferInstanceAs (Decidable (a.nama_fakultas ≤ b.nama_fakultas))

instance : IsTotal FakultasRow fakultasLe := ⟨fun a b => le_total a.nama_fakultas b.nama_fakultas⟩

instance : IsTrans FakultasRow fakultasLe := ⟨fun _ _ _ h1 h2 => le_trans h1 h2⟩

/-! ### CRUD mahasiswa -/

def mahasiswaNimError : String := "UNIQUE constraint failed: mahasiswa.nim"

/-- Statement `INSERT INTO mahasiswa (nim, nama, jurusan, fakultas, semester, email)
VALUES (?, ?, ?, ?, ?, ?)`; the `fakultas` bind is `mahasiswa.fakultas ?? null`.
Returns `result.lastInsertRowId` and the new table; the UNIQUE constraint on
`nim` rejects duplicates and the source rethrows the error unmodified. -/
def addMahasiswa (m : MahasiswaInput) (now : String) (tbl : MahasiswaTable) :
    Except String (Nat × MahasiswaTable) :=
  if tbl.rows.any (fun r => r.nim == m.nim) then
    .error mahasiswaNimError
  else
    .ok (tbl.nextId,
      { rows := tbl.rows ++
          [⟨tbl.nextId, m.nim, m.nama, m.jurusan, m.fakultas, m.semester, m.email, now⟩],
        nextId := tbl.nextId + 1 })

/-- Statement `SELECT * FROM mahasiswa ORDER BY nama ASC`. -/
def getAllMahasiswa (tbl : MahasiswaTable) : List MahasiswaRow :=
  List.insertionSort mahasiswaLe tbl.rows

/-- Statement `SELECT * FROM mahasiswa WHERE id = ?`, `result || null`. -/
def getMahasiswaById (id : Nat) (tbl : MahasiswaTable) : Option MahasiswaRow :=
  tbl.rows.find? (fun r => r.id == id)

/-- Statement `UPDATE mahasiswa SET nim = ?, nama = ?, jurusan = ?, fakultas = ?,
semester = ?, email = ? WHERE id = ?`.  The UNIQUE constraint on `nim` fires
when the targeted row exists and another row already holds the new `nim`. -/
def updateMahasiswa (id : Nat) (m : MahasiswaInput) (tbl : MahasiswaTable) :
    Except String MahasiswaTable :=
  if (tbl.rows.any (fun r => r.id == id)) &&
      (tbl.rows.any (fun r => r.id != id && r.nim == m.nim)) then
    .error mahasiswaNimError
  else
    .ok { tbl with
      rows := tbl.rows.map (fun r =>
        if r.id == id then
          { r with nim := m.nim, nama := m.nama, jurusan := m.jurusan,
                   fakultas := m.fakultas, semester := m.semester, email := m.email }
        else r) }

/-- Statement `DELETE FROM mahasiswa WHERE id = ?`. -/
def deleteMahasiswa (id : Nat) (tbl : MahasiswaTable) : MahasiswaTable :=
  { tbl with rows := tbl.rows.filter (fun r => r.id != id) }

/-- The `WHERE` clause of `searchMahasiswa`:
`nama LIKE ? OR nim LIKE ? OR jurusan LIKE ? OR fakultas LIKE ? OR email LIKE ?`
with every bind `%keyword%`.  A NULL `fakultas` makes its disjunct non-true. -/
def mahasiswaLikeRow (kw : String) (r : MahasiswaRow) : Bool :=
  likeContains kw r.nama || likeContains kw r.nim || likeContains kw r.jurusan ||
    (match r.fakultas with
      | none => false
      | some f => likeContains kw f) ||
    likeContains kw r.email

/-- Statement `SELECT * FROM mahasiswa WHERE … LIKE … ORDER BY nama ASC`. -/
def searchMahasiswa (kw : String) (tbl : MahasiswaTable) : List MahasiswaRow :=
  List.insertionSort mahasiswaLe (tbl.rows.filter (mahasiswaLikeRow kw))

/-- Specification-side row predicate: some designated student column (name,
nim, program name, faculty name, email) contains the keyword as a
case-insensitive substring; a NULL faculty contains nothing. -/
def mahasiswaContainsCI (kw : String) (r : MahasiswaRow) : Bool :=
  containsCI r.nama kw || containsCI r.nim kw || containsCI r.jurusan kw ||
    (match r.fakultas with
      | none => false
      | some f => containsCI f kw) ||
    containsCI r.email kw

/-! ### CRUD prodi -/

def prodiKodeError : String := "UNIQUE constraint failed: prodi.kode_prodi"

/-- Statement `INSERT INTO prodi (kode_prodi, nama_prodi, fakultas, akreditasi, deskripsi)
VALUES (?, ?, ?, ?, ?)` with `akreditasi || null` and `deskripsi || null`;
on failure the source wraps the message as `Failed to add prodi: …`. -/
def addProdi (p : ProdiInput) (now : String) (tbl : ProdiTable) :
    Except String (Nat × ProdiTable) :=
  if tbl.rows.any (fun r => r.kode_prodi == p.kode_prodi) then
    .error ("Failed to add prodi: " ++ prodiKodeError)
  else
    .ok (tbl.nextId,
      { rows := tbl.rows ++
          [⟨tbl.nextId, p.kode_prodi, p.nama_prodi, p.fakultas,
            jsOrNull p.akreditasi, jsOrNull p.deskripsi, now⟩],
        nextId := tbl.nextId + 1 })

/-- Statement `SELECT * FROM prodi ORDER BY nama_prodi ASC`. -/
def getAllProdi (tbl : ProdiTable) : List ProdiRow :=
  List.insertionSort prodiLe tbl.rows

/-- Statement `SELECT * FROM prodi WHERE id = ?`, `result || null`. -/
def getProdiById (id : Nat) (tbl : ProdiTable) : Option ProdiRow :=
  tbl.rows.find? (fun r => r.id == id)

/-- Statement `UPDATE prodi SET kode_prodi = ?, nama_prodi = ?, fakultas = ?,
akreditasi = ?, deskripsi = ? WHERE id = ?` (optional binds `|| null`);
errors are rethrown unmodified. -/
def updateProdi (id : Nat) (p : ProdiInput) (tbl : ProdiTable) :
    Except String ProdiTable :=
  if (tbl.rows.any (fun r => r.id == id)) &&
      (tbl.rows.any (fun r => r.id != id && r.kode_prodi == p.kode_prodi)) then
    .error prodiKodeError
  else
    .ok { tbl with
      rows := tbl.rows.map (fun r =>
        if r.id == id then
          { r with kode_prodi := p.kode_prodi, nama_prodi := p.nama_prodi,
                   fakultas := p.fakultas, akreditasi := jsOrNull p.akreditasi,
                   deskripsi := jsOrNull p.deskripsi }
        else r) }

/-- Statement `DELETE FROM prodi WHERE id = ?`. -/
def deleteProdi (id : Nat) (tbl : ProdiTable) : ProdiTable :=
  { tbl with rows := tbl.rows.filter (fun r => r.id != id) }

/-- The `WHERE` clause of `searchProdi`:
`nama_prodi LIKE ? OR kode_prodi LIKE ? OR fakultas LIKE ? OR akreditasi LIKE ?`. -/
def prodiLikeRow (kw : String) (r : ProdiRow) : Bool :=
  likeContains kw r.nama_prodi || likeContains kw r.kode_prodi ||
    likeContains kw r.fakultas ||
    (match r.akreditasi with
      | none => false
      | some a => likeContains kw a)

/-- Statement `SELECT * FROM prodi WHERE … LIKE … ORDER BY nama_prodi ASC`. -/
def searchProdi (kw : String) (tbl : ProdiTable) : List ProdiRow :=
  List.insertionSort prodiLe (tbl.rows.filter (prodiLikeRow kw))

/-- Specification-side row predicate for program search (name, code, faculty
name, accreditation). -/
def prodiContainsCI (kw : String) (r : ProdiRow) : Bool :=
  containsCI r.nama_prodi kw || containsCI r.kode_prodi kw ||
    containsCI r.fakultas kw ||
    (match r.akreditasi with
      | none => false
      | some a => containsCI a kw)

/-! ### CRUD fakultas -/

def fakultasKodeError : String := "UNIQUE constraint failed: fakultas.kode_fakultas"

/-- Statement `INSERT INTO fakultas (kode_fakultas, nama_fakultas, deskripsi)
VALUES (?, ?, ?)` with `deskripsi || null`; on failure the source wraps the
message as `Failed to add fakultas: …`. -/
def addFakultas (f : FakultasInput) (now : String) (tbl : FakultasTable) :
    Except String (Nat × FakultasTable) :=
  if tbl.rows.any (fun r => r.kode_fakultas == f.kode_fakultas) then
    .error ("Failed to add fakultas: " ++ fakultasKodeError)
  else
    .ok (tbl.nextId,
      { rows := tbl.rows ++
          [⟨tbl.nextId, f.kode_fakultas, f.nama_fakultas, jsOrNull f.deskripsi, now⟩],
        nextId := tbl.nextId + 1 })

/-- Statement `SELECT * FROM fakultas ORDER BY nama_fakultas ASC`. -/
def getAllFakultas (tbl : FakultasTable) : List FakultasRow :=
  List.insertionSort fakultasLe tbl.rows

/-- Statement `SELECT * FROM fakultas WHERE id = ?`, `result || null`. -/
def getFakultasById (id : Nat) (tbl : FakultasTable) : Option FakultasRow :=
  tbl.rows.find? (fun r => r.id == id)

/-- Statement `UPDATE fakultas SET kode_fakultas = ?, nama_fakultas = ?, deskripsi = ?
WHERE id = ?` (optional bind `|| null`); errors rethrown unmodified. -/
def updateFakultas (id : Nat) (f : FakultasInput) (tbl : FakultasTable) :
    Except String FakultasTable :=
  if (tbl.rows.any (fun r => r.id == id)) &&
      (tbl.rows.any (fun r => r.id != id && r.kode_fakultas == f.kode_fakultas)) then
    .error fakultasKodeError
  else
    .ok { tbl with
      rows := tbl.rows.map (fun r =>
        if r.id == id then
          { r with kode_fakultas := f.kode_fakultas, nama_fakultas := f.nama_fakultas,
                   deskripsi := jsOrNull f.deskripsi }
        else r) }

/-- Statement `DELETE FROM fakultas WHERE id = ?`. -/
def deleteFakultas (id : Nat) (tbl : FakultasTable) : FakultasTable :=
  { tbl with rows := tbl.rows.filter (fun r => r.id != id) }

/-! ### Users / authentication -/

def usersEmailError : String := "UNIQUE constraint failed: users.email"

/-- Statement `INSERT INTO users (name, email, password) VALUES (?, ?, ?)` with the
email bind `user.email.toLowerCase()`. -/
def addUser (u : UserInput) (now : String) (tbl : UsersTable) :
    Except String (Nat × UsersTable) :=
  if tbl.rows.any (fun r => r.email == u.email.toLower) then
    .error usersEmailError
  else
    .ok (tbl.nextId,
      { rows := tbl.rows ++ [⟨tbl.nextId, u.name, u.email.toLower, u.password, now⟩],
        nextId := tbl.nextId + 1 })

/-- Statement `SELECT * FROM users WHERE email = ?` with bind `email.toLowerCase()`,
then `result || null`. -/
def getUserByEmail (email : String) (tbl : UsersTable) : Option UserRow :=
  tbl.rows.find? (fun r => r.email == email.toLower)

/-- Composition: `getUserByEmail` then `user.password === password ? user : null`. -/
def authenticateUser (email password : String) (tbl : UsersTable) : Option UserRow :=
  match getUserByEmail email tbl with
  | none => none
  | some u => if u.password == password then some u else none

/-! ### Stable sort / filter interaction

SQL evaluates `WHERE` before `ORDER BY`; these lemmas show that for the
stable insertion sort this equals filtering the fully sorted table, which is
how "search results are ordered identically to getAll" is phrased. -/

theorem orderedInsert_of_forall {α : Type} (r : α → α → Prop) [DecidableRel r] (x : α) :
    ∀ l : List α, (∀ z ∈ l, r x z) → List.orderedInsert r x l = x :: l := by
  intro l h
  cases l with
  | nil => rfl
  | cons z zs => exact List.orderedInsert_of_le r zs (h z (List.mem_cons_self z zs))

theorem filter_orderedInsert {α : Type} (r : α → α → Prop) [DecidableRel r] [IsTrans α r]
    (p : α → Bool) (x : α) :
    ∀ l : List α, l.Sorted r →
      (List.orderedInsert r x l).filter p =
        if p x then List.orderedInsert r x (l.filter p) else l.filter p := by
  intro l
  induction l with
  | nil =>
    intro _
    by_cases hx : p x <;> simp [List.orderedInsert, hx]
  | cons y ys ih =>
    intro hs
    have hys : ys.Sorted r := hs.of_cons
    by_cases hxy : r x y
    · rw [List.orderedInsert_of_le r ys hxy]
      by_cases hx : p x
      · rw [if_pos hx]
        have hall : ∀ z ∈ (y :: ys).filter p, r x z := by
          intro z hz
          have hz2 : z ∈ y :: ys := List.mem_of_mem_filter hz
          rcases List.mem_cons.1 hz2 with h | h
          · exact h ▸ hxy
          · exact IsTrans.trans x y z hxy (List.rel_of_sorted_cons hs z h)
        rw [orderedInsert_of_forall r x _ hall, List.filter_cons_of_pos hx]
      · rw [if_neg hx, List.filter_cons_of_neg hx]
    · have hins : List.orderedInsert r x (y :: ys) = y :: List.orderedInsert r x ys := by
        simp [List.orderedInsert, hxy]
      rw [hins]
      by_cases hy : p y
      · rw [List.filter_cons_of_pos hy, ih hys]
        by_cases hx : p x
        · rw [if_pos hx, if_pos hx, List.filter_cons_of_pos hy]
          simp [List.orderedInsert, hxy]
        · rw [if_neg hx, if_neg hx, List.filter_cons_of_pos hy]
      · rw [List.filter_cons_of_neg hy, ih hys]
        by_cases hx : p x
        · rw [if_pos hx, if_pos hx, List.filter_cons_of_neg hy]
        · rw [if_neg hx, if_neg hx, List.filter_cons_of_neg hy]

theorem insertionSort_filter {α : Type} (r : α → α → Prop) [DecidableRel r]
    [IsTotal α r] [IsTrans α r] (p : α → Bool) :
    ∀ l : List α, List.insertionSort r (l.filter p) = (List.insertionSort r l).filter p := by
  intro l
  induction l with
  | nil => rfl
  | cons x xs ih =>
    show List.insertionSort r ((x :: xs).filter p) =
      (List.orderedInsert r x (List.insertionSort r xs)).filter p
    rw [filter_orderedInsert r p x _ (List.sorted_insertionSort r xs), List.filter_cons]
    by_cases hx : p x
    · rw [if_pos hx, if_pos hx]
      show List.orderedInsert r x (List.insertionSort r (xs.filter p)) = _
      rw [ih]
    · rw [if_neg hx, if_neg hx, ih]

/-! ### Claim C9: getAll ordering -/

/-- C9: for every entity and every table state (hence every insertion
order), `getAll()` returns exactly the stored rows (a permutation of the
table) sorted ascending by the designated display-name field: student
`nama`, program `nama_prodi`, faculty `nama_fakultas`. -/
theorem getAll_sorted_by_display_name :
    (∀ tbl : MahasiswaTable,
      (getAllMahasiswa tbl).Pairwise (fun a b => a.nama ≤ b.nama) ∧
        (getAllMahasiswa tbl).Perm tbl.rows) ∧
    (∀ tbl : ProdiTable,
      (getAllProdi tbl).Pairwise (fun a b => a.nama_prodi ≤ b.nama_prodi) ∧
        (getAllProdi tbl).Perm tbl.rows) ∧
    (∀ tbl : FakultasTable,
      (getAllFakultas tbl).Pairwise (fun a b => a.nama_fakultas ≤ b.nama_fakultas) ∧
        (getAllFakultas tbl).Perm tbl.rows) := by
  refine ⟨fun tbl => ⟨?_, ?_⟩, fun tbl => ⟨?_, ?_⟩, fun tbl => ⟨?_, ?_⟩⟩
  · exact List.sorted_insertionSort mahasiswaLe tbl.rows
  · exact List.perm_insertionSort mahasiswaLe tbl.rows
  · exact List.sorted_insertionSort prodiLe tbl.rows
  · exact List.perm_insertionSort prodiLe tbl.rows
  · exact List.sorted_insertionSort fakultasLe tbl.rows
  · exact List.perm_insertionSort fakultasLe tbl.rows

/-! ### Claim C4: search correctness -/

theorem mahasiswaLikeRow_eq_containsCI (kw : String) (h : NoWild kw) (r : MahasiswaRow) :
    mahasiswaLikeRow kw r = mahasiswaContainsCI kw r := by
  unfold mahasiswaLikeRow mahasiswaContainsCI
  cases r.fakultas <;> simp only [likeContains_eq_containsCI kw h]

theorem prodiLikeRow_eq_containsCI (kw : String) (h : NoWild kw) (r : ProdiRow) :
    prodiLikeRow kw r = prodiContainsCI kw r := by
  unfold prodiLikeRow prodiContainsCI
  cases r.akreditasi <;> simp only [likeContains_eq_containsCI kw h]

/-- C4 (amended): for every keyword free of the `LIKE` metacharacters `%`
and `_`, and every table state, `search(keyword)` returns exactly the rows
in which at least one designated text column (students: name, nim, program
name, faculty name, email; programs: name, code, faculty name,
accreditation) contains the keyword as a case-insensitive (ASCII)
substring, in exactly the order `getAll` returns them.  The unamended claim
quantified over every keyword; keywords containing `%` or `_` are
interpolated unescaped into the `LIKE` pattern and act as wildcards (see
the counterexample and C10). -/
theorem search_eq_filter_containsCI (kw : String) (h : NoWild kw) :
    (∀ tbl : MahasiswaTable,
      searchMahasiswa kw tbl = (getAllMahasiswa tbl).filter (mahasiswaContainsCI kw)) ∧
    (∀ tbl : ProdiTable,
      searchProdi kw tbl = (getAllProdi tbl).filter (prodiContainsCI kw)) := by
  constructor
  · intro tbl
    show List.insertionSort mahasiswaLe (tbl.rows.filter (mahasiswaLikeRow kw)) = _
    rw [List.filter_congr (fun r _ => mahasiswaLikeRow_eq_containsCI kw h r),
      insertionSort_filter mahasiswaLe (mahasiswaContainsCI kw) tbl.rows]
    rfl
  · intro tbl
    show List.insertionSort prodiLe (tbl.rows.filter (prodiLikeRow kw)) = _
    rw [List.filter_congr (fun r _ => prodiLikeRow_eq_containsCI kw h r),
      insertionSort_filter prodiLe (prodiContainsCI kw) tbl.rows]
    rfl

/-- A concrete student row none of whose columns contains the character
`%` (nor the text `a_c`). -/
def wildRow : MahasiswaRow :=
  ⟨1, "12345", "Budi", "Teknik Informatika", none, 3, "budi@kampus.ac.id", "2024-01-01 00:00:00"⟩

def wildTbl : MahasiswaTable := ⟨[wildRow], 2⟩

/-- C4 counterexample: for the keyword `"%"` the claim as stated fails —
`searchMahasiswa` returns a row although none of its designated columns
contains `"%"` as a (case-insensitive) substring. -/
theorem searchMahasiswa_percent_counterexample :
    searchMahasiswa "%" wildTbl = [wildRow] ∧ mahasiswaContainsCI "%" wildRow = false := by
  constructor
  · rfl
  · rfl

/-- C4 witness. -/
theorem search_eq_filter_containsCI_witness :
    NoWild "bud" ∧
      (searchMahasiswa "bud" wildTbl =
        (getAllMahasiswa wildTbl).filter (mahasiswaContainsCI "bud")) := by
  refine ⟨by decide, (search_eq_filter_containsCI "bud" (by decide)).1 wildTbl⟩

/-! ### Claim C10: unescaped LIKE wildcards -/

theorem likeMatch_triple_percent : ∀ t : List Char, likeMatch ['%', '%', '%'] t = true := by
  intro t
  show (if ('%' : Char) = '%' then t.tails.any (fun u => likeMatch ['%', '%'] u) else _) = true
  rw [if_pos rfl, List.any_eq_true]
  exact ⟨[], (List.mem_tails _ _).2 List.nil_suffix, rfl⟩

theorem likeContains_percent (s : String) : likeContains "%" s = true :=
  likeMatch_triple_percent s.data

/-- A second concrete row/table for the wildcard claim, distinct from the
C4 counterexample artifacts. -/
def wildRow2 : MahasiswaRow :=
  ⟨7, "99881", "Sari", "Sistem Informasi", some "FT", 5, "sari@kampus.ac.id", "2024-02-02 00:00:00"⟩

def wildTbl2 : MahasiswaTable := ⟨[wildRow2], 8⟩

/-- C10: the search keyword is interpolated into the `LIKE` pattern without
escaping, so `%` and `_` act as wildcards: `search("%")` returns every row
of the table, ordered as `getAll` — including (second conjunct) a concrete
row none of whose searched columns contains the character `%` — and (third
conjunct) the keyword `a_c` matches the text `abc`, which does not contain
`a_c` literally. -/
theorem search_wildcards_unescaped :
    (∀ tbl : MahasiswaTable, searchMahasiswa "%" tbl = getAllMahasiswa tbl) ∧
    (searchMahasiswa "%" wildTbl2 = [wildRow2] ∧ mahasiswaContainsCI "%" wildRow2 = false) ∧
    (likeContains "a_c" "abc" = true ∧ containsCI "abc" "a_c" = false) := by
  refine ⟨?_, ⟨rfl, rfl⟩, ⟨rfl, rfl⟩⟩
  intro tbl
  show List.insertionSort mahasiswaLe (tbl.rows.filter (mahasiswaLikeRow "%")) =
    List.insertionSort mahasiswaLe tbl.rows
  rw [List.filter_eq_self.2 (fun r _ => ?_)]
  unfold mahasiswaLikeRow
  rw [likeContains_percent r.nama]
  simp

/-! ### Claim C3: round-trip integrity -/

/-- Auto-increment well-formedness: every stored rowid is below the
counter, as SQLite maintains for `INTEGER PRIMARY KEY AUTOINCREMENT`. -/
def MahasiswaTable.WF (tbl : MahasiswaTable) : Prop := ∀ r ∈ tbl.rows, r.id < tbl.nextId

def ProdiTable.WF (tbl : ProdiTable) : Prop := ∀ r ∈ tbl.rows, r.id < tbl.nextId

def FakultasTable.WF (tbl : FakultasTable) : Prop := ∀ r ∈ tbl.rows, r.id < tbl.nextId

instance (tbl : MahasiswaTable) : Decidable tbl.WF := by
  unfold MahasiswaTable.WF; infer_instance

instance (tbl : ProdiTable) : Decidable tbl.WF := by
  unfold ProdiTable.WF; infer_instance

instance (tbl : FakultasTable) : Decidable tbl.WF := by
  unfold FakultasTable.WF; infer_instance

theorem find?_append_singleton {α : Type} (p : α → Bool) (l : List α) (x : α)
    (h : ∀ r ∈ l, ¬ p r) (hx : p x) : (l ++ [x]).find? p = some x := by
  rw [List.find?_append, List.find?_eq_none.2 h, Option.none_or,
    List.find?_cons_of_pos _ hx]

theorem find?_map_cond {α : Type} (p : α → Bool) (f : α → α)
    (hf : ∀ r, p (f r) = p r) :
    ∀ (l : List α) (r : α), l.find? p = some r →
      (l.map (fun x => if p x then f x else x)).find? p = some (f r) := by
  intro l
  induction l with
  | nil =>
    intro r h
    exact absurd h (by simp)
  | cons a t ih =>
    intro r h
    by_cases ha : p a = true
    · have hra : a = r := by
        rw [List.find?_cons_of_pos _ ha] at h
        exact Option.some.inj h
      subst hra
      simp only [List.map_cons, if_pos ha]
      exact List.find?_cons_of_pos _ (by rw [hf a]; exact ha)
    · have ht : t.find? p = some r := by
        rw [List.find?_cons_of_neg _ ha] at h
        exact h
      simp only [List.map_cons, if_neg ha]
      rw [List.find?_cons_of_neg _ ha]
      exact ih r ht

theorem jsOrNull_eq_self {x : Option String} (h : x ≠ some "") : jsOrNull x = x := by
  cases x with
  | none => rfl
  | some s =>
    have hs : ¬ s = "" := fun hs => h (by rw [hs])
    simp [jsOrNull, hs]

/-- C3: round-trip integrity for every entity (students, programs,
faculties).  `create` then `getById` of the returned id yields a record
whose fields equal the input (modulo the assigned id and `created_at`, and
for programs/faculties with valid inputs whose optional fields, when
supplied, are non-empty — the `|| null` bind coerces an empty string to
NULL); `update(id, input)` then `getById(id)` yields the new values (with
`created_at` untouched); `delete(id)` then `getById(id)` yields `none`.
Valid inputs also carry a fresh unique key, since the UNIQUE column rejects
duplicates. -/
theorem crud_roundtrip :
    (∀ (m : MahasiswaInput) (now : String) (tbl : MahasiswaTable), tbl.WF →
      (∀ r ∈ tbl.rows, r.nim ≠ m.nim) →
      ∃ tbl2, addMahasiswa m now tbl = .ok (tbl.nextId, tbl2) ∧
        getMahasiswaById tbl.nextId tbl2 =
          some ⟨tbl.nextId, m.nim, m.nama, m.jurusan, m.fakultas, m.semester, m.email, now⟩) ∧
    (∀ (m : MahasiswaInput) (id : Nat) (tbl : MahasiswaTable) (r : MahasiswaRow),
      getMahasiswaById id tbl = some r →
      (∀ q ∈ tbl.rows, q.id ≠ id → q.nim ≠ m.nim) →
      ∃ tbl2, updateMahasiswa id m tbl = .ok tbl2 ∧
        getMahasiswaById id tbl2 =
          some ⟨id, m.nim, m.nama, m.jurusan, m.fakultas, m.semester, m.email, r.created_at⟩) ∧
    (∀ (id : Nat) (tbl : MahasiswaTable),
      getMahasiswaById id (deleteMahasiswa id tbl) = none) ∧
    (∀ (p : ProdiInput) (now : String) (tbl : ProdiTable), tbl.WF →
      (∀ r ∈ tbl.rows, r.kode_prodi ≠ p.kode_prodi) →
      p.akreditasi ≠ some "" → p.deskripsi ≠ some "" →
      ∃ tbl2, addProdi p now tbl = .ok (tbl.nextId, tbl2) ∧
        getProdiById tbl.nextId tbl2 =
          some ⟨tbl.nextId, p.kode_prodi, p.nama_prodi, p.fakultas,
            p.akreditasi, p.deskripsi, now⟩) ∧
    (∀ (p : ProdiInput) (id : Nat) (tbl : ProdiTable) (r : ProdiRow),
      getProdiById id tbl = some r →
      (∀ q ∈ tbl.rows, q.id ≠ id → q.kode_prodi ≠ p.kode_prodi) →
      p.akreditasi ≠ some "" → p.deskripsi ≠ some "" →
      ∃ tbl2, updateProdi id p tbl = .ok tbl2 ∧
        getProdiById id tbl2 =
          some ⟨id, p.kode_prodi, p.nama_prodi, p.fakultas,
            p.akreditasi, p.deskripsi, r.created_at⟩) ∧
    (∀ (id : Nat) (tbl : ProdiTable),
      getProdiById id (deleteProdi id tbl) = none) ∧
    (∀ (f : FakultasInput) (now : String) (tbl : FakultasTable), tbl.WF →
      (∀ r ∈ tbl.rows, r.kode_fakultas ≠ f.kode_fakultas) →
      f.deskripsi ≠ some "" →
      ∃ tbl2, addFakultas f now tbl = .ok (tbl.nextId, tbl2) ∧
        getFakultasById tbl.nextId tbl2 =
          some ⟨tbl.nextId, f.kode_fakultas, f.nama_fakultas, f.deskripsi, now⟩) ∧
    (∀ (f : FakultasInput) (id : Nat) (tbl : FakultasTable) (r : FakultasRow),
      getFakultasById id tbl = some r →
      (∀ q ∈ tbl.rows, q.id ≠ id → q.kode_fakultas ≠ f.kode_fakultas) →
      f.deskripsi ≠ some "" →
      ∃ tbl2, updateFakultas id f tbl = .ok tbl2 ∧
        getFakultasById id tbl2 =
          some ⟨id, f.kode_fakultas, f.nama_fakultas, f.deskripsi, r.created_at⟩) ∧
    (∀ (id : Nat) (tbl : FakultasTable),
      getFakultasById id (deleteFakultas id tbl) = none) := by
  refine ⟨?_, ?_, ?_, ?_, ?_, ?_, ?_, ?_, ?_⟩
  · -- addMahasiswa round trip
    intro m now tbl hwf hfresh
    have hdup : (tbl.rows.any (fun r => r.nim == m.nim)) = false :=
      List.any_eq_false.2 (fun r hr => by simp [hfresh r hr])
    have hadd : addMahasiswa m now tbl = .ok (tbl.nextId,
        ⟨tbl.rows ++ [⟨tbl.nextId, m.nim, m.nama, m.jurusan, m.fakultas, m.semester,
          m.email, now⟩], tbl.nextId + 1⟩) := by
      unfold addMahasiswa
      rw [hdup]
      rfl
    refine ⟨_, hadd, ?_⟩
    exact find?_append_singleton _ tbl.rows _
      (fun r hr => by simp [Nat.ne_of_lt (hwf r hr)]) (by simp)
  · -- updateMahasiswa round trip
    intro m id tbl r hfind hnodup
    have hfind2 : tbl.rows.find? (fun q => q.id == id) = some r := hfind
    have hrid : r.id = id := by simpa using List.find?_some hfind2
    have hno : tbl.rows.any (fun q => q.id != id && q.nim == m.nim) = false := by
      refine List.any_eq_false.2 (fun q hq => ?_)
      by_cases hqid : q.id = id
      · simp [hqid]
      · simp [hqid, hnodup q hq hqid]
    have hupd : updateMahasiswa id m tbl = .ok { tbl with
        rows := tbl.rows.map (fun x => if x.id == id then { x with
          nim := m.nim, nama := m.nama, jurusan := m.jurusan,
          fakultas := m.fakultas, semester := m.semester, email := m.email } else x) } := by
      unfold updateMahasiswa
      rw [hno, Bool.and_false]
      rfl
    refine ⟨_, hupd, ?_⟩
    have hmap := find?_map_cond (fun x => x.id == id)
      (fun x => { x with
        nim := m.nim, nama := m.nama, jurusan := m.jurusan,
        fakultas := m.fakultas, semester := m.semester, email := m.email })
      (fun x => rfl) tbl.rows r hfind2
    show (tbl.rows.map _).find? _ = _
    rw [hmap]
    cases r
    simp_all
  · -- deleteMahasiswa round trip
    intro id tbl
    refine List.find?_eq_none.2 (fun x hx => ?_)
    have := (List.mem_filter.1 hx).2
    simp at this ⊢
    exact this
  · -- addProdi round trip
    intro p now tbl hwf hfresh hak hde
    have hdup : (tbl.rows.any (fun r => r.kode_prodi == p.kode_prodi)) = false :=
      List.any_eq_false.2 (fun r hr => by simp [hfresh r hr])
    have hadd : addProdi p now tbl = .ok (tbl.nextId,
        ⟨tbl.rows ++ [⟨tbl.nextId, p.kode_prodi, p.nama_prodi, p.fakultas,
          jsOrNull p.akreditasi, jsOrNull p.deskripsi, now⟩], tbl.nextId + 1⟩) := by
      unfold addProdi
      rw [hdup]
      rfl
    refine ⟨_, hadd, ?_⟩
    rw [show (⟨tbl.nextId, p.kode_prodi, p.nama_prodi, p.fakultas, p.akreditasi,
        p.deskripsi, now⟩ : ProdiRow) =
      ⟨tbl.nextId, p.kode_prodi, p.nama_prodi, p.fakultas, jsOrNull p.akreditasi,
        jsOrNull p.deskripsi, now⟩ by rw [jsOrNull_eq_self hak, jsOrNull_eq_self hde]]
    exact find?_append_singleton _ tbl.rows _
      (fun r hr => by simp [Nat.ne_of_lt (hwf r hr)]) (by simp)
  · -- updateProdi round trip
    intro p id tbl r hfind hnodup hak hde
    have hfind2 : tbl.rows.find? (fun q => q.id == id) = some r := hfind
    have hrid : r.id = id := by simpa using List.find?_some hfind2
    have hno : tbl.rows.any (fun q => q.id != id && q.kode_prodi == p.kode_prodi) = false := by
      refine List.any_eq_false.2 (fun q hq => ?_)
      by_cases hqid : q.id = id
      · simp [hqid]
      · simp [hqid, hnodup q hq hqid]
    have hupd : updateProdi id p tbl = .ok { tbl with
        rows := tbl.rows.map (fun x => if x.id == id then { x with
          kode_prodi := p.kode_prodi, nama_prodi := p.nama_prodi, fakultas := p.fakultas,
          akreditasi := jsOrNull p.akreditasi, deskripsi := jsOrNull p.deskripsi } else x) } := by
      unfold updateProdi
      rw [hno, Bool.and_false]
      rfl
    refine ⟨_, hupd, ?_⟩
    have hmap := find?_map_cond (fun x => x.id == id)
      (fun x => { x with
        kode_prodi := p.kode_prodi, nama_prodi := p.nama_prodi, fakultas := p.fakultas,
        akreditasi := jsOrNull p.akreditasi, deskripsi := jsOrNull p.deskripsi })
      (fun x => rfl) tbl.rows r hfind2
    show (tbl.rows.map _).find? _ = _
    rw [hmap, jsOrNull_eq_self hak, jsOrNull_eq_self hde]
    cases r
    simp_all
  · -- deleteProdi round trip
    intro id tbl
    refine List.find?_eq_none.2 (fun x hx => ?_)
    have := (List.mem_filter.1 hx).2
    simp at this ⊢
    exact this
  · -- addFakultas round trip
    intro f now tbl hwf hfresh hde
    have hdup : (tbl.rows.any (fun r => r.kode_fakultas == f.kode_fakultas)) = false :=
      List.any_eq_false.2 (fun r hr => by simp [hfresh r hr])
    have hadd : addFakultas f now tbl = .ok (tbl.nextId,
        ⟨tbl.rows ++ [⟨tbl.nextId, f.kode_fakultas, f.nama_fakultas,
          jsOrNull f.deskripsi, now⟩], tbl.nextId + 1⟩) := by
      unfold addFakultas
      rw [hdup]
      rfl
    refine ⟨_, hadd, ?_⟩
    rw [show (⟨tbl.nextId, f.kode_fakultas, f.nama_fakultas, f.deskripsi, now⟩ : FakultasRow) =
      ⟨tbl.nextId, f.kode_fakultas, f.nama_fakultas, jsOrNull f.deskripsi, now⟩ by
        rw [jsOrNull_eq_self hde]]
    exact find?_append_singleton _ tbl.rows _
      (fun r hr => by simp [Nat.ne_of_lt (hwf r hr)]) (by simp)
  · -- updateFakultas round trip
    intro f id tbl r hfind hnodup hde
    have hfind2 : tbl.rows.find? (fun q => q.id == id) = some r := hfind
    have hrid : r.id = id := by simpa using List.find?_some hfind2
    have hno : tbl.rows.any
        (fun q => q.id != id && q.kode_fakultas == f.kode_fakultas) = false := by
      refine List.any_eq_false.2 (fun q hq => ?_)
      by_cases hqid : q.id = id
      · simp [hqid]
      · simp [hqid, hnodup q hq hqid]
    have hupd : updateFakultas id f tbl = .ok { tbl with
        rows := tbl.rows.map (fun x => if x.id == id then { x with
          kode_fakultas := f.kode_fakultas, nama_fakultas := f.nama_fakultas,
          deskripsi := jsOrNull f.deskripsi } else x) } := by
      unfold updateFakultas
      rw [hno, Bool.and_false]
      rfl
    refine ⟨_, hupd, ?_⟩
    have hmap := find?_map_cond (fun x => x.id == id)
      (fun x => { x with
        kode_fakultas := f.kode_fakultas, nama_fakultas := f.nama_fakultas,
        deskripsi := jsOrNull f.deskripsi })
      (fun x => rfl) tbl.rows r hfind2
    show (tbl.rows.map _).find? _ = _
    rw [hmap, jsOrNull_eq_self hde]
    cases r
    simp_all
  · -- deleteFakultas round trip
    intro id tbl
    refine List.find?_eq_none.2 (fun x hx => ?_)
    have := (List.mem_filter.1 hx).2
    simp at this ⊢
    exact this

def c3MTbl : MahasiswaTable :=
  ⟨[⟨0, "100", "Andi", "TI", none, 1, "andi@x.id", "2024-01-01"⟩], 1⟩

def c3MInput : MahasiswaInput := ⟨"200", "Citra", "SI", some "FT", 2, "citra@x.id"⟩

def c3PTbl : ProdiTable :=
  ⟨[⟨0, "TI", "Teknik Informatika", "FT", some "A", none, "2024-01-01"⟩], 1⟩

def c3PInput : ProdiInput := ⟨"SI", "Sistem Informasi", "FT", none, some "baru"⟩

def c3FTbl : FakultasTable := ⟨[⟨0, "FT", "Fakultas Teknik", none, "2024-01-01"⟩], 1⟩

def c3FInput : FakultasInput := ⟨"FE", "Fakultas Ekonomi", none⟩

/-- C3 witness: the round-trip theorem applied to concrete tables and
inputs for all three entities. -/
theorem crud_roundtrip_witness :
    c3MTbl.WF ∧
    (∃ tbl2, addMahasiswa c3MInput "2024-03-03" c3MTbl = .ok (c3MTbl.nextId, tbl2) ∧
      getMahasiswaById c3MTbl.nextId tbl2 =
        some ⟨c3MTbl.nextId, "200", "Citra", "SI", some "FT", 2, "citra@x.id", "2024-03-03"⟩) ∧
    (∃ tbl2, updateMahasiswa 0 c3MInput c3MTbl = .ok tbl2 ∧
      getMahasiswaById 0 tbl2 =
        some ⟨0, "200", "Citra", "SI", some "FT", 2, "citra@x.id", "2024-01-01"⟩) ∧
    getMahasiswaById 0 (deleteMahasiswa 0 c3MTbl) = none ∧
    (∃ tbl2, addProdi c3PInput "2024-03-03" c3PTbl = .ok (c3PTbl.nextId, tbl2) ∧
      getProdiById c3PTbl.nextId tbl2 =
        some ⟨c3PTbl.nextId, "SI", "Sistem Informasi", "FT", none, some "baru", "2024-03-03"⟩) ∧
    (∃ tbl2, updateProdi 0 c3PInput c3PTbl = .ok tbl2 ∧
      getProdiById 0 tbl2 =
        some ⟨0, "SI", "Sistem Informasi", "FT", none, some "baru", "2024-01-01"⟩) ∧
    getProdiById 0 (deleteProdi 0 c3PTbl) = none ∧
    (∃ tbl2, addFakultas c3FInput "2024-03-03" c3FTbl = .ok (c3FTbl.nextId, tbl2) ∧
      getFakultasById c3FTbl.nextId tbl2 =
        some ⟨c3FTbl.nextId, "FE", "Fakultas Ekonomi", none, "2024-03-03"⟩) ∧
    (∃ tbl2, updateFakultas 0 c3FInput c3FTbl = .ok tbl2 ∧
      getFakultasById 0 tbl2 = some ⟨0, "FE", "Fakultas Ekonomi", none, "2024-01-01"⟩) ∧
    getFakultasById 0 (deleteFakultas 0 c3FTbl) = none := by
  have h := crud_roundtrip
  refine ⟨by decide, ?_, ?_, ?_, ?_, ?_, ?_, ?_, ?_, ?_⟩
  · exact h.1 c3MInput "2024-03-03" c3MTbl (by decide) (by decide)
  · exact h.2.1 c3MInput 0 c3MTbl ⟨0, "100", "Andi", "TI", none, 1, "andi@x.id", "2024-01-01"⟩
      (by decide) (by decide)
  · exact h.2.2.1 0 c3MTbl
  · exact h.2.2.2.1 c3PInput "2024-03-03" c3PTbl (by decide) (by decide) (by decide) (by decide)
  · exact h.2.2.2.2.1 c3PInput 0 c3PTbl
      ⟨0, "TI", "Teknik Informatika", "FT", some "A", none, "2024-01-01"⟩
      (by decide) (by decide) (by decide) (by decide)
  · exact h.2.2.2.2.2.1 0 c3PTbl
  · exact h.2.2.2.2.2.2.1 c3FInput "2024-03-03" c3FTbl (by decide) (by decide) (by decide)
  · exact h.2.2.2.2.2.2.2.1 c3FInput 0 c3FTbl ⟨0, "FT", "Fakultas Teknik", none, "2024-01-01"⟩
      (by decide) (by decide) (by decide)
  · exact h.2.2.2.2.2.2.2.2 0 c3FTbl

/-! ### Initialization guard

`initDatabase` keeps two module-level variables: `db` (the cached handle)
and `initPromise` (the in-flight promise).  A caller first checks
`initPromise` (awaiting it if set), then `db`, and otherwise starts the
attempt, assigning `initPromise` synchronously before any await.  The
attempt body opens the store, creates the `mahasiswa` and `users` tables,
runs the best-effort `ALTER TABLE mahasiswa ADD COLUMN fakultas`, creates
`prodi` and `fakultas`, then publishes `db`.  In the catch block it resets
`initPromise` and `db` to null, closes a partially opened handle
best-effort, and rethrows `Database initialization failed: <message>`.

The environment `InitEnv` fixes which underlying steps fail and with what
message; `runInit` is the attempt body, and `step`/`runGuard` drive the
guard state machine over a trace of caller arrivals and the resolution of
the in-flight attempt. -/

instance : DecidableEq (Except String Nat) := fun a b =>
  match a, b with
  | .ok x, .ok y =>
    if h : x = y then isTrue (h ▸ rfl) else isFalse (fun hc => h (Except.ok.inj hc))
  | .error x, .error y =>
    if h : x = y then isTrue (h ▸ rfl) else isFalse (fun hc => h (Except.error.inj hc))
  | .ok _, .error _ => isFalse (fun hc => Except.noConfusion hc)
  | .error _, .ok _ => isFalse (fun hc => Except.noConfusion hc)

structure InitEnv where
  openRes : Except String Nat
  mahasiswaErr : Option String
  usersErr : Option String
  alterErr : Option String
  prodiErr : Option String
  fakultasErr : Option String
deriving DecidableEq

inductive AlterBranch where
  | added
  | duplicateNoop
  | otherLogged
deriving DecidableEq

/-- The catch test of the ALTER step:
`message.includes('duplicate column name') || message.includes('already exists')`. -/
def alterDup (m : String) : Bool :=
  strIncludes m "duplicate column name" || strIncludes m "already exists"

structure InitOutcome where
  result : Except String Nat
  closedAttempted : Bool
  alterBranch : Option AlterBranch
deriving DecidableEq

/-- Message of `throw new Error('Database initialization failed: ' + errorMsg)`. -/
def initFailMsg (m : String) : String := "Database initialization failed: " ++ m

/-- One underlying "open + create tables" attempt.  Failures of any step
other than the ALTER abort the attempt (with the handle closed best-effort
when the open succeeded); the ALTER failure only selects a log branch. -/
def runInit (env : InitEnv) : InitOutcome :=
  match env.openRes with
  | .error e => ⟨.error (initFailMsg e), false, none⟩
  | .ok h =>
    match env.mahasiswaErr with
    | some m => ⟨.error (initFailMsg m), true, none⟩
    | none =>
      match env.usersErr with
      | some m => ⟨.error (initFailMsg m), true, none⟩
      | none =>
        let ab : AlterBranch :=
          match env.alterErr with
          | none => .added
          | some m => if alterDup m then .duplicateNoop else .otherLogged
        match env.prodiErr with
        | some m => ⟨.error (initFailMsg m), true, some ab⟩
        | none =>
          match env.fakultasErr with
          | some m => ⟨.error (initFailMsg m), true, some ab⟩
          | none => ⟨.ok h, false, some ab⟩

inductive PromiseSt where
  | noneP
  | pending (k : Nat)
  | resolvedOk (h : Nat)
deriving DecidableEq

structure Guard where
  db : Option Nat
  promise : PromiseSt
  attemptsStarted : Nat
  waiting : List Nat
  delivered : List (Nat × Except String Nat)
deriving DecidableEq

def Guard.start : Guard := ⟨none, .noneP, 0, [], []⟩

inductive Ev where
  | call (cid : Nat)
  | resolve
deriving DecidableEq

/-- One event of the guard.  A `call` replays the synchronous prefix of
`initDatabase`: an in-flight promise is awaited, a resolved promise (or the
cached `db`) yields the handle at once, and otherwise a fresh attempt
starts.  `resolve` completes the in-flight attempt: success publishes `db`
and leaves `initPromise` resolved; failure resets both (the catch block)
and rejects every awaiting caller with the same error. -/
def step (env : Nat → InitEnv) (g : Guard) : Ev → Guard
  | .call cid =>
    match g.promise with
    | .pending _ => { g with waiting := g.waiting ++ [cid] }
    | .resolvedOk h => { g with delivered := g.delivered ++ [(cid, .ok h)] }
    | .noneP =>
      match g.db with
      | some h => { g with delivered := g.delivered ++ [(cid, .ok h)] }
      | none =>
        { g with promise := .pending g.attemptsStarted,
                 attemptsStarted := g.attemptsStarted + 1,
                 waiting := g.waiting ++ [cid] }
  | .resolve =>
    match g.promise with
    | .pending k =>
      match (runInit (env k)).result with
      | .ok h =>
        { g with db := some h, promise := .resolvedOk h, waiting := [],
                 delivered := g.delivered ++ g.waiting.map (fun c => (c, Except.ok h)) }
      | .error m =>
        { g with db := none, promise := .noneP, waiting := [],
                 delivered := g.delivered ++ g.waiting.map (fun c => (c, Except.error m)) }
    | _ => g

def runGuard (env : Nat → InitEnv) (evs : List Ev) : Guard :=
  evs.foldl (step env) Guard.start

def exceptIsOk : Except String Nat → Bool
  | .ok _ => true
  | .error _ => false

/-- Some step of the attempt other than the ALTER fails. -/
def nonAlterFailure (env : InitEnv) : Prop :=
  exceptIsOk env.openRes = false ∨ env.mahasiswaErr ≠ none ∨ env.usersErr ≠ none ∨
    env.prodiErr ≠ none ∨ env.fakultasErr ≠ none

instance (env : InitEnv) : Decidable (nonAlterFailure env) := by
  unfold nonAlterFailure; infer_instance

theorem runInit_nonAlter_fails (env : InitEnv) (hfail : nonAlterFailure env) :
    (∃ m, (runInit env).result = .error (initFailMsg m)) ∧
    (exceptIsOk env.openRes = true → (runInit env).closedAttempted = true) := by
  rcases hO : env.openRes with e | hh
  · exact ⟨⟨e, by simp [runInit, hO]⟩, fun hc => by simp [exceptIsOk, hO] at hc⟩
  · rcases hM : env.mahasiswaErr with _ | m
    · rcases hU : env.usersErr with _ | m
      · rcases hP : env.prodiErr with _ | m
        · rcases hF : env.fakultasErr with _ | m
          · exfalso
            rcases hfail with h | h | h | h | h
            · simp [exceptIsOk, hO] at h
            · exact h hM
            · exact h hU
            · exact h hP
            · exact h hF
          · exact ⟨⟨m, by simp [runInit, hO, hM, hU, hP, hF]⟩,
              fun _ => by simp [runInit, hO, hM, hU, hP, hF]⟩
        · exact ⟨⟨m, by simp [runInit, hO, hM, hU, hP]⟩,
            fun _ => by simp [runInit, hO, hM, hU, hP]⟩
      · exact ⟨⟨m, by simp [runInit, hO, hM, hU]⟩,
          fun _ => by simp [runInit, hO, hM, hU]⟩
    · exact ⟨⟨m, by simp [runInit, hO, hM]⟩, fun _ => by simp [runInit, hO, hM]⟩

/-! ### Claim C1: at-most-once initialization -/

def envOkAt (h : Nat) : InitEnv := ⟨.ok h, none, none, none, none, none⟩

def envOpenFail : InitEnv := ⟨.error "disk I/O error", none, none, none, none, none⟩

def c1Env : Nat → InitEnv := fun k => if k = 0 then envOpenFail else envOkAt 1

def c1Trace : List Ev := [.call 0, .resolve, .call 1, .resolve]

/-- C1 counterexample: with sequential callers the claim as stated fails —
when the first attempt fails, the guard resets and the next caller starts a
second underlying open+create sequence, and the two callers receive
different results (an error versus a handle), not "the same failure". -/
theorem init_two_attempts_counterexample :
    (runGuard c1Env c1Trace).attemptsStarted = 2 ∧
    (runGuard c1Env c1Trace).delivered =
      [(0, .error (initFailMsg "disk I/O error")), (1, .ok 1)] := by
  constructor
  · rfl
  · rfl

/-- Invariant of the guard when the (only) underlying attempt, attempt 0,
succeeds with handle `h0`. -/
def GuardInv (h0 : Nat) (g : Guard) : Prop :=
  (∀ pr ∈ g.delivered, pr.2 = Except.ok h0) ∧
  ((g.attemptsStarted = 0 ∧ g.promise = .noneP ∧ g.db = none) ∨
    (g.attemptsStarted = 1 ∧ g.promise = .pending 0) ∨
    (g.attemptsStarted = 1 ∧ g.promise = .resolvedOk h0 ∧ g.db = some h0))

theorem guardInv_step (env : Nat → InitEnv) (h0 : Nat)
    (hok : (runInit (env 0)).result = .ok h0) (g : Guard) (e : Ev)
    (hg : GuardInv h0 g) : GuardInv h0 (step env g e) := by
  obtain ⟨hdel, hst⟩ := hg
  cases e with
  | call cid =>
    rcases hst with ⟨ha, hp, hd⟩ | ⟨ha, hp⟩ | ⟨ha, hp, hd⟩
    · refine ⟨?_, Or.inr (Or.inl ⟨by simp [step, hp, hd, ha], by simp [step, hp, hd, ha]⟩)⟩
      simp only [step, hp, hd]
      exact hdel
    · refine ⟨?_, Or.inr (Or.inl ⟨by simp [step, hp, ha], by simp [step, hp]⟩)⟩
      simp only [step, hp]
      exact hdel
    · refine ⟨?_, Or.inr (Or.inr ⟨by simp [step, hp, ha], by simp [step, hp],
        by simp [step, hp, hd]⟩)⟩
      simp only [step, hp]
      intro pr hpr
      rcases List.mem_append.1 hpr with h | h
      · exact hdel pr h
      · simp at h
        rw [h]
  | resolve =>
    rcases hst with ⟨ha, hp, hd⟩ | ⟨ha, hp⟩ | ⟨ha, hp, hd⟩
    · exact ⟨by simpa [step, hp] using hdel, Or.inl ⟨by simp [step, hp, ha],
        by simp [step, hp, hp], by simp [step, hp, hd]⟩⟩
    · refine ⟨?_, Or.inr (Or.inr ⟨by simp [step, hp, hok, ha], by simp [step, hp, hok],
        by simp [step, hp, hok]⟩)⟩
      simp only [step, hp, hok]
      intro pr hpr
      rcases List.mem_append.1 hpr with h | h
      · exact hdel pr h
      · rcases List.mem_map.1 h with ⟨c, _, hc⟩
        rw [← hc]
    · exact ⟨by simpa [step, hp] using hdel, Or.inr (Or.inr ⟨by simp [step, hp, ha],
        by simp [step, hp, hp], by simp [step, hp, hd]⟩)⟩

theorem guardInv_runGuard (env : Nat → InitEnv) (h0 : Nat)
    (hok : (runInit (env 0)).result = .ok h0) :
    ∀ (evs : List Ev) (g : Guard), GuardInv h0 g → GuardInv h0 (evs.foldl (step env) g) := by
  intro evs
  induction evs with
  | nil => exact fun g hg => hg
  | cons e t ih => exact fun g hg => ih _ (guardInv_step env h0 hok g e hg)

/-- C1 (amended): when the single underlying attempt succeeds, the guard is
at-most-once — for every trace of concurrent or sequential callers, at most
one open+create sequence ever starts and every delivered result is the same
handle.  Callers that arrive while an attempt is in flight always share
that attempt's result.  The unamended claim fails only in that, after a
FAILED attempt, the guard deliberately resets so a later (sequential)
caller starts a fresh attempt — see the counterexample. -/
theorem init_at_most_once_on_success (env : Nat → InitEnv) (h0 : Nat)
    (hok : (runInit (env 0)).result = .ok h0) (evs : List Ev) :
    (runGuard env evs).attemptsStarted ≤ 1 ∧
      ∀ pr ∈ (runGuard env evs).delivered, pr.2 = Except.ok h0 := by
  have hinv0 := guardInv_runGuard env h0 hok evs Guard.start
    ⟨by simp [Guard.start], Or.inl ⟨rfl, rfl, rfl⟩⟩
  have hinv : GuardInv h0 (runGuard env evs) := hinv0
  refine ⟨?_, hinv.1⟩
  rcases hinv.2 with ⟨ha, _⟩ | ⟨ha, _⟩ | ⟨ha, _⟩ <;> omega

def c1OkEnv : Nat → InitEnv := fun _ => envOkAt 1

def c1OkTrace : List Ev := [.call 0, .call 1, .resolve, .call 2]

/-- C1 witness: two concurrent callers plus a later sequential one against
an environment whose attempt succeeds with handle 1. -/
theorem init_at_most_once_witness :
    (runInit (c1OkEnv 0)).result = .ok 1 ∧
    ((runGuard c1OkEnv c1OkTrace).attemptsStarted ≤ 1 ∧
      ∀ pr ∈ (runGuard c1OkEnv c1OkTrace).delivered, pr.2 = Except.ok 1) :=
  ⟨rfl, init_at_most_once_on_success c1OkEnv 1 rfl c1OkTrace⟩

/-! ### Claim C2: failure resets the guard -/

/-- C2: if any initialization step other than the ALTER fails, the attempt
ends in an error of the form `Database initialization failed: …`; after the
attempt resolves the guard is fully reset (`db` and `initPromise` both
cleared), the caller received exactly that error, the partially opened
handle was closed best-effort (whenever the open itself succeeded), and a
subsequent call starts a fresh attempt (the attempt counter reaches 2). -/
theorem init_failure_resets_guard (env : Nat → InitEnv)
    (hfail : nonAlterFailure (env 0)) :
    (∃ m, (runInit (env 0)).result = .error (initFailMsg m)) ∧
    (runGuard env [.call 0, .resolve]).db = none ∧
    (runGuard env [.call 0, .resolve]).promise = .noneP ∧
    (runGuard env [.call 0, .resolve]).delivered = [(0, (runInit (env 0)).result)] ∧
    (exceptIsOk (env 0).openRes = true → (runInit (env 0)).closedAttempted = true) ∧
    (runGuard env [.call 0, .resolve, .call 1]).attemptsStarted = 2 := by
  obtain ⟨⟨m, hm⟩, hclosed⟩ := runInit_nonAlter_fails (env 0) hfail
  have h2 : runGuard env [.call 0, .resolve] =
      ⟨none, .noneP, 1, [], [(0, .error (initFailMsg m))]⟩ := by
    simp [runGuard, step, Guard.start, hm]
  have h3 : (runGuard env [.call 0, .resolve, .call 1]).attemptsStarted = 2 := by
    simp [runGuard, step, Guard.start, hm]
  refine ⟨⟨m, hm⟩, ?_, ?_, ?_, hclosed, h3⟩
  · rw [h2]
  · rw [h2]
  · rw [h2, hm]

def c2Env : Nat → InitEnv := fun _ => ⟨.ok 1, none, some "SQL logic error", none, none, none⟩

/-- C2 witness: the users-table creation step fails concretely. -/
theorem init_failure_resets_guard_witness :
    nonAlterFailure (c2Env 0) ∧
    ((∃ m, (runInit (c2Env 0)).result = .error (initFailMsg m)) ∧
      (runGuard c2Env [.call 0, .resolve]).db = none ∧
      (runGuard c2Env [.call 0, .resolve]).promise = .noneP ∧
      (runGuard c2Env [.call 0, .resolve]).delivered = [(0, (runInit (c2Env 0)).result)] ∧
      (exceptIsOk (c2Env 0).openRes = true → (runInit (c2Env 0)).closedAttempted = true) ∧
      (runGuard c2Env [.call 0, .resolve, .call 1]).attemptsStarted = 2) :=
  ⟨by decide, init_failure_resets_guard c2Env (by decide)⟩

/-! ### Claim C8: additive-column (ALTER) step -/

def c8Env : InitEnv := ⟨.ok 1, none, none, some "duplicate column: fakultas", none, none⟩

/-- C8 counterexample: an ALTER failure message containing the claim's
detection substring "duplicate column" — but not the code's exact substring
"duplicate column name" — is NOT treated as the duplicate no-op: the code
takes the logged-error branch (initialization still completes). -/
theorem alter_detection_counterexample :
    strIncludes "duplicate column: fakultas" "duplicate column" = true ∧
    alterDup "duplicate column: fakultas" = false ∧
    (runInit c8Env).alterBranch = some .otherLogged ∧
    (runInit c8Env).result = .ok 1 := by
  refine ⟨rfl, rfl, rfl, rfl⟩

/-- C8 (amended): during initialization, an ALTER-step failure whose message
contains "duplicate column name" or "already exists" (the code's exact
`includes` tests, `alterDup`) is treated as the successful duplicate no-op;
any other ALTER failure takes the logged branch; in every case — including
no ALTER failure at all — the failure is not propagated and initialization
completes successfully, provided no other step fails. -/
theorem alter_step_nonfatal (env : InitEnv) (h : Nat)
    (hopen : env.openRes = .ok h) (hm : env.mahasiswaErr = none)
    (hu : env.usersErr = none) (hp : env.prodiErr = none) (hf : env.fakultasErr = none) :
    (runInit env).result = .ok h ∧
    (env.alterErr = none → (runInit env).alterBranch = some .added) ∧
    (∀ m, env.alterErr = some m → alterDup m = true →
      (runInit env).alterBranch = some .duplicateNoop) ∧
    (∀ m, env.alterErr = some m → alterDup m = false →
      (runInit env).alterBranch = some .otherLogged) := by
  refine ⟨by simp [runInit, hopen, hm, hu, hp, hf], ?_, ?_, ?_⟩
  · intro ha
    simp [runInit, hopen, hm, hu, hp, hf, ha]
  · intro m ha hd
    simp [runInit, hopen, hm, hu, hp, hf, ha, hd]
  · intro m ha hd
    simp [runInit, hopen, hm, hu, hp, hf, ha, hd]

def c8EnvDup : InitEnv := ⟨.ok 1, none, none, some "duplicate column name: fakultas", none, none⟩

/-- C8 witness: the genuine SQLite duplicate-column message is recognized and
initialization completes. -/
theorem alter_step_nonfatal_witness :
    (c8EnvDup.openRes = .ok 1 ∧ alterDup "duplicate column name: fakultas" = true) ∧
    ((runInit c8EnvDup).result = .ok 1 ∧
      (runInit c8EnvDup).alterBranch = some .duplicateNoop) := by
  have h := alter_step_nonfatal c8EnvDup 1 rfl rfl rfl rfl rfl
  exact ⟨⟨rfl, rfl⟩, h.1, h.2.2.1 "duplicate column name: fakultas" rfl rfl⟩

/-! ### Claim C5: error propagation -/

def c5PTbl : ProdiTable := ⟨[⟨0, "TI", "Teknik Informatika", "FT", none, none, "2024-01-01"⟩], 1⟩

def c5PInput : ProdiInput := ⟨"TI", "Teknik Komputer", "FT", none, none⟩

/-- C5 counterexample: a UNIQUE violation inside `addProdi` reaches the
caller re-wrapped (`Failed to add prodi: …` + underlying message), not
unmodified as the claim states. -/
theorem addProdi_wraps_error_counterexample :
    addProdi c5PInput "2024-02-02" c5PTbl =
      .error ("Failed to add prodi: " ++ prodiKodeError) ∧
    "Failed to add prodi: " ++ prodiKodeError ≠ prodiKodeError := by
  refine ⟨rfl, by decide⟩

/-- C5 (amended): every failing statement and every lifecycle fault
propagates to the caller (no retry, no suppression), and the ALTER step
alone is non-fatal; but the message is not always unmodified: the
operations other than the two wrapping inserts rethrow the underlying error
as-is (`addMahasiswa`, `addUser` and the three `update*` functions, shown
here on their UNIQUE-violation failures), while `addProdi`/`addFakultas`
wrap it as `Failed to add prodi/fakultas: <message>` and `initDatabase`
wraps lifecycle faults as `Database initialization failed: <message>`. -/
theorem error_propagation :
    (∀ (m : MahasiswaInput) (now : String) (tbl : MahasiswaTable),
      (∃ r ∈ tbl.rows, r.nim = m.nim) →
      addMahasiswa m now tbl = .error mahasiswaNimError) ∧
    (∀ (m : MahasiswaInput) (id : Nat) (tbl : MahasiswaTable),
      (∃ r ∈ tbl.rows, r.id = id) →
      (∃ q ∈ tbl.rows, q.id ≠ id ∧ q.nim = m.nim) →
      updateMahasiswa id m tbl = .error mahasiswaNimError) ∧
    (∀ (u : UserInput) (now : String) (tbl : UsersTable),
      (∃ r ∈ tbl.rows, r.email = u.email.toLower) →
      addUser u now tbl = .error usersEmailError) ∧
    (∀ (p : ProdiInput) (now : String) (tbl : ProdiTable),
      (∃ r ∈ tbl.rows, r.kode_prodi = p.kode_prodi) →
      addProdi p now tbl = .error ("Failed to add prodi: " ++ prodiKodeError)) ∧
    (∀ (f : FakultasInput) (now : String) (tbl : FakultasTable),
      (∃ r ∈ tbl.rows, r.kode_fakultas = f.kode_fakultas) →
      addFakultas f now tbl = .error ("Failed to add fakultas: " ++ fakultasKodeError)) ∧
    (∀ (p : ProdiInput) (id : Nat) (tbl : ProdiTable),
      (∃ r ∈ tbl.rows, r.id = id) →
      (∃ q ∈ tbl.rows, q.id ≠ id ∧ q.kode_prodi = p.kode_prodi) →
      updateProdi id p tbl = .error prodiKodeError) ∧
    (∀ (f : FakultasInput) (id : Nat) (tbl : FakultasTable),
      (∃ r ∈ tbl.rows, r.id = id) →
      (∃ q ∈ tbl.rows, q.id ≠ id ∧ q.kode_fakultas = f.kode_fakultas) →
      updateFakultas id f tbl = .error fakultasKodeError) ∧
    (∀ env : InitEnv, nonAlterFailure env →
      ∃ m, (runInit env).result = .error (initFailMsg m)) ∧
    (∀ (env : InitEnv) (h : Nat), env.openRes = .ok h → env.mahasiswaErr = none →
      env.usersErr = none → env.prodiErr = none → env.fakultasErr = none →
      (runInit env).result = .ok h) := by
  refine ⟨?_, ?_, ?_, ?_, ?_, ?_, ?_, ?_, ?_⟩
  · intro m now tbl ⟨r, hr, hnim⟩
    have hdup : (tbl.rows.any (fun q => q.nim == m.nim)) = true :=
      List.any_eq_true.2 ⟨r, hr, by simp [hnim]⟩
    simp [addMahasiswa, hdup]
  · intro m id tbl ⟨r, hr, hrid⟩ ⟨q, hq, hqid, hqnim⟩
    have h1 : (tbl.rows.any (fun x => x.id == id)) = true :=
      List.any_eq_true.2 ⟨r, hr, by simp [hrid]⟩
    have h2 : (tbl.rows.any (fun x => x.id != id && x.nim == m.nim)) = true :=
      List.any_eq_true.2 ⟨q, hq, by simp [hqid, hqnim]⟩
    simp [updateMahasiswa, h1, h2]
  · intro u now tbl ⟨r, hr, hmail⟩
    have hdup : (tbl.rows.any (fun q => q.email == u.email.toLower)) = true :=
      List.any_eq_true.2 ⟨r, hr, by simp [hmail]⟩
    simp [addUser, hdup]
  · intro p now tbl ⟨r, hr, hk⟩
    have hdup : (tbl.rows.any (fun q => q.kode_prodi == p.kode_prodi)) = true :=
      List.any_eq_true.2 ⟨r, hr, by simp [hk]⟩
    simp [addProdi, hdup]
  · intro f now tbl ⟨r, hr, hk⟩
    have hdup : (tbl.rows.any (fun q => q.kode_fakultas == f.kode_fakultas)) = true :=
      List.any_eq_true.2 ⟨r, hr, by simp [hk]⟩
    simp [addFakultas, hdup]
  · intro p id tbl ⟨r, hr, hrid⟩ ⟨q, hq, hqid, hqk⟩
    have h1 : (tbl.rows.any (fun x => x.id == id)) = true :=
      List.any_eq_true.2 ⟨r, hr, by simp [hrid]⟩
    have h2 : (tbl.rows.any (fun x => x.id != id && x.kode_prodi == p.kode_prodi)) = true :=
      List.any_eq_true.2 ⟨q, hq, by simp [hqid, hqk]⟩
    simp [updateProdi, h1, h2]
  · intro f id tbl ⟨r, hr, hrid⟩ ⟨q, hq, hqid, hqk⟩
    have h1 : (tbl.rows.any (fun x => x.id == id)) = true :=
      List.any_eq_true.2 ⟨r, hr, by simp [hrid]⟩
    have h2 : (tbl.rows.any (fun x => x.id != id && x.kode_fakultas == f.kode_fakultas)) = true :=
      List.any_eq_true.2 ⟨q, hq, by simp [hqid, hqk]⟩
    simp [updateFakultas, h1, h2]
  · intro env hfail
    exact (runInit_nonAlter_fails env hfail).1
  · intro env h hopen hm hu hp hf
    simp [runInit, hopen, hm, hu, hp, hf]

def c5MTbl : MahasiswaTable := ⟨[⟨0, "100", "Andi", "TI", none, 1, "andi@x.id", "2024-01-01"⟩], 1⟩

def c5MInput : MahasiswaInput := ⟨"100", "Beni", "SI", none, 2, "beni@x.id"⟩

def c5M2Tbl : MahasiswaTable :=
  ⟨[⟨0, "100", "Andi", "TI", none, 1, "andi@x.id", "2024-01-01"⟩,
    ⟨1, "200", "Budi", "SI", none, 2, "budi@x.id", "2024-01-02"⟩], 2⟩

def c5MUpdInput : MahasiswaInput := ⟨"100", "Budi", "SI", none, 2, "budi@x.id"⟩

def c5P2Tbl : ProdiTable :=
  ⟨[⟨0, "TI", "Teknik Informatika", "FT", none, none, "2024-01-01"⟩,
    ⟨1, "SI", "Sistem Informasi", "FT", none, none, "2024-01-02"⟩], 2⟩

def c5PUpdInput : ProdiInput := ⟨"TI", "Sistem Informasi", "FT", none, none⟩

def c5F2Tbl : FakultasTable :=
  ⟨[⟨0, "FT", "Fakultas Teknik", none, "2024-01-01"⟩,
    ⟨1, "FE", "Fakultas Ekonomi", none, "2024-01-02"⟩], 2⟩

def c5FUpdInput : FakultasInput := ⟨"FT", "Fakultas Ekonomi", none⟩

theorem toLower_data (s : String) : s.toLower = ⟨s.data.map Char.toLower⟩ :=
  String.map_eq Char.toLower s

def c5UTbl : UsersTable := ⟨[⟨0, "Admin", "admin@x.id", "pw", "2024-01-01"⟩], 1⟩

def c5UInput : UserInput := ⟨"Other", "ADMIN@X.ID", "pw2"⟩

/-- C5 witness: concrete duplicate-key inserts and updates on every entity
(including a case-folded duplicate user email), plus a concrete failing and
a concrete succeeding initialization environment. -/
theorem error_propagation_witness :
    (∃ r ∈ c5MTbl.rows, r.nim = c5MInput.nim) ∧
    addMahasiswa c5MInput "2024-02-02" c5MTbl = .error mahasiswaNimError ∧
    updateMahasiswa 1 c5MUpdInput c5M2Tbl = .error mahasiswaNimError ∧
    addUser c5UInput "2024-02-02" c5UTbl = .error usersEmailError ∧
    addProdi c5PInput "2024-02-02" c5PTbl =
      .error ("Failed to add prodi: " ++ prodiKodeError) ∧
    updateProdi 1 c5PUpdInput c5P2Tbl = .error prodiKodeError ∧
    updateFakultas 1 c5FUpdInput c5F2Tbl = .error fakultasKodeError ∧
    (∃ m, (runInit (c2Env 0)).result = .error (initFailMsg m)) ∧
    (runInit c8EnvDup).result = .ok 1 := by
  have h := error_propagation
  refine ⟨?_, ?_, ?_, ?_, ?_, ?_, ?_, ?_, ?_⟩
  · exact ⟨⟨0, "100", "Andi", "TI", none, 1, "andi@x.id", "2024-01-01"⟩, by decide, rfl⟩
  · exact h.1 c5MInput "2024-02-02" c5MTbl
      ⟨⟨0, "100", "Andi", "TI", none, 1, "andi@x.id", "2024-01-01"⟩, by decide, rfl⟩
  · exact h.2.1 c5MUpdInput 1 c5M2Tbl
      ⟨⟨1, "200", "Budi", "SI", none, 2, "budi@x.id", "2024-01-02"⟩, by decide, rfl⟩
      ⟨⟨0, "100", "Andi", "TI", none, 1, "andi@x.id", "2024-01-01"⟩, by decide, by decide, rfl⟩
  · exact h.2.2.1 c5UInput "2024-02-02" c5UTbl
      ⟨⟨0, "Admin", "admin@x.id", "pw", "2024-01-01"⟩, by decide, by rw [toLower_data]; decide⟩
  · exact h.2.2.2.1 c5PInput "2024-02-02" c5PTbl
      ⟨⟨0, "TI", "Teknik Informatika", "FT", none, none, "2024-01-01"⟩, by decide, rfl⟩
  · exact h.2.2.2.2.2.1 c5PUpdInput 1 c5P2Tbl
      ⟨⟨1, "SI", "Sistem Informasi", "FT", none, none, "2024-01-02"⟩, by decide, rfl⟩
      ⟨⟨0, "TI", "Teknik Informatika", "FT", none, none, "2024-01-01"⟩, by decide, by decide, rfl⟩
  · exact h.2.2.2.2.2.2.1 c5FUpdInput 1 c5F2Tbl
      ⟨⟨1, "FE", "Fakultas Ekonomi", none, "2024-01-02"⟩, by decide, rfl⟩
      ⟨⟨0, "FT", "Fakultas Teknik", none, "2024-01-01"⟩, by decide, by decide, rfl⟩
  · exact h.2.2.2.2.2.2.2.1 (c2Env 0) (by decide)
  · exact h.2.2.2.2.2.2.2.2 c8EnvDup 1 rfl rfl rfl rfl rfl

/-! ### Claim C6: optional-field nullability -/

def c6Tbl : MahasiswaTable := ⟨[], 1⟩

def c6Input : MahasiswaInput := ⟨"300", "Dewi", "TI", some "", 1, "dewi@x.id"⟩

/-- C6 counterexample: `addMahasiswa` persists an explicitly supplied empty
string for the optional faculty-on-student column — the `?? null` bind
keeps `""` intact — contradicting "no create ever persists an empty string
for such a field". -/
theorem addMahasiswa_empty_fakultas_counterexample :
    addMahasiswa c6Input "2024-01-01" c6Tbl =
      .ok (1, ⟨[⟨1, "300", "Dewi", "TI", some "", 1, "dewi@x.id", "2024-01-01"⟩], 2⟩) ∧
    getMahasiswaById 1
        (⟨[⟨1, "300", "Dewi", "TI", some "", 1, "dewi@x.id", "2024-01-01"⟩], 2⟩ :
          MahasiswaTable) =
      some ⟨1, "300", "Dewi", "TI", some "", 1, "dewi@x.id", "2024-01-01"⟩ := by
  refine ⟨rfl, rfl⟩

/-- C6 (amended): a create or update whose input does not supply an optional
field persists NULL for every entity; for the program fields `akreditasi` /
`deskripsi` and the faculty field `deskripsi` the `|| null` binds of both
`add*` and `update*` moreover coerce a supplied empty string to NULL, so
those columns never receive an empty string; but the student faculty bind
`?? null` (in `addMahasiswa` and `updateMahasiswa` alike) stores a supplied
value verbatim — including the empty string — so the "never an empty
string" half fails only there (see the counterexample). -/
theorem optional_fields_nullability :
    (∀ x, jsOrNull x = none ↔ x = none ∨ x = some "") ∧
    (∀ s, s ≠ "" → jsOrNull (some s) = some s) ∧
    (∀ (p : ProdiInput) (now : String) (tbl : ProdiTable), tbl.WF →
      (∀ r ∈ tbl.rows, r.kode_prodi ≠ p.kode_prodi) →
      ∃ tbl2, addProdi p now tbl = .ok (tbl.nextId, tbl2) ∧
        getProdiById tbl.nextId tbl2 =
          some ⟨tbl.nextId, p.kode_prodi, p.nama_prodi, p.fakultas,
            jsOrNull p.akreditasi, jsOrNull p.deskripsi, now⟩) ∧
    (∀ (f : FakultasInput) (now : String) (tbl : FakultasTable), tbl.WF →
      (∀ r ∈ tbl.rows, r.kode_fakultas ≠ f.kode_fakultas) →
      ∃ tbl2, addFakultas f now tbl = .ok (tbl.nextId, tbl2) ∧
        getFakultasById tbl.nextId tbl2 =
          some ⟨tbl.nextId, f.kode_fakultas, f.nama_fakultas, jsOrNull f.deskripsi, now⟩) ∧
    (∀ (m : MahasiswaInput) (now : String) (tbl : MahasiswaTable), tbl.WF →
      (∀ r ∈ tbl.rows, r.nim ≠ m.nim) →
      ∃ tbl2, addMahasiswa m now tbl = .ok (tbl.nextId, tbl2) ∧
        getMahasiswaById tbl.nextId tbl2 =
          some ⟨tbl.nextId, m.nim, m.nama, m.jurusan, m.fakultas, m.semester,
            m.email, now⟩) ∧
    (∀ (p : ProdiInput) (id : Nat) (tbl : ProdiTable) (r : ProdiRow),
      getProdiById id tbl = some r →
      (∀ q ∈ tbl.rows, q.id ≠ id → q.kode_prodi ≠ p.kode_prodi) →
      ∃ tbl2, updateProdi id p tbl = .ok tbl2 ∧
        getProdiById id tbl2 =
          some ⟨id, p.kode_prodi, p.nama_prodi, p.fakultas,
            jsOrNull p.akreditasi, jsOrNull p.deskripsi, r.created_at⟩) ∧
    (∀ (f : FakultasInput) (id : Nat) (tbl : FakultasTable) (r : FakultasRow),
      getFakultasById id tbl = some r →
      (∀ q ∈ tbl.rows, q.id ≠ id → q.kode_fakultas ≠ f.kode_fakultas) →
      ∃ tbl2, updateFakultas id f tbl = .ok tbl2 ∧
        getFakultasById id tbl2 =
          some ⟨id, f.kode_fakultas, f.nama_fakultas, jsOrNull f.deskripsi,
            r.created_at⟩) ∧
    (∀ (m : MahasiswaInput) (id : Nat) (tbl : MahasiswaTable) (r : MahasiswaRow),
      getMahasiswaById id tbl = some r →
      (∀ q ∈ tbl.rows, q.id ≠ id → q.nim ≠ m.nim) →
      ∃ tbl2, updateMahasiswa id m tbl = .ok tbl2 ∧
        getMahasiswaById id tbl2 =
          some ⟨id, m.nim, m.nama, m.jurusan, m.fakultas, m.semester, m.email,
            r.created_at⟩) := by
  refine ⟨?_, ?_, ?_, ?_, ?_, ?_, ?_, ?_⟩
  · intro x
    cases x with
    | none => simp [jsOrNull]
    | some s =>
      by_cases hs : s = ""
      · simp [jsOrNull, hs]
      · simp [jsOrNull, hs]
  · intro s hs
    simp [jsOrNull, hs]
  · intro p now tbl hwf hfresh
    have hdup : (tbl.rows.any (fun r => r.kode_prodi == p.kode_prodi)) = false :=
      List.any_eq_false.2 (fun r hr => by simp [hfresh r hr])
    have hadd : addProdi p now tbl = .ok (tbl.nextId,
        ⟨tbl.rows ++ [⟨tbl.nextId, p.kode_prodi, p.nama_prodi, p.fakultas,
          jsOrNull p.akreditasi, jsOrNull p.deskripsi, now⟩], tbl.nextId + 1⟩) := by
      unfold addProdi
      rw [hdup]
      rfl
    refine ⟨_, hadd, ?_⟩
    exact find?_append_singleton _ tbl.rows _
      (fun r hr => by simp [Nat.ne_of_lt (hwf r hr)]) (by simp)
  · intro f now tbl hwf hfresh
    have hdup : (tbl.rows.any (fun r => r.kode_fakultas == f.kode_fakultas)) = false :=
      List.any_eq_false.2 (fun r hr => by simp [hfresh r hr])
    have hadd : addFakultas f now tbl = .ok (tbl.nextId,
        ⟨tbl.rows ++ [⟨tbl.nextId, f.kode_fakultas, f.nama_fakultas,
          jsOrNull f.deskripsi, now⟩], tbl.nextId + 1⟩) := by
      unfold addFakultas
      rw [hdup]
      rfl
    refine ⟨_, hadd, ?_⟩
    exact find?_append_singleton _ tbl.rows _
      (fun r hr => by simp [Nat.ne_of_lt (hwf r hr)]) (by simp)
  · intro m now tbl hwf hfresh
    have hdup : (tbl.rows.any (fun r => r.nim == m.nim)) = false :=
      List.any_eq_false.2 (fun r hr => by simp [hfresh r hr])
    have hadd : addMahasiswa m now tbl = .ok (tbl.nextId,
        ⟨tbl.rows ++ [⟨tbl.nextId, m.nim, m.nama, m.jurusan, m.fakultas, m.semester,
          m.email, now⟩], tbl.nextId + 1⟩) := by
      unfold addMahasiswa
      rw [hdup]
      rfl
    refine ⟨_, hadd, ?_⟩
    exact find?_append_singleton _ tbl.rows _
      (fun r hr => by simp [Nat.ne_of_lt (hwf r hr)]) (by simp)
  · intro p id tbl r hfind hnodup
    have hfind2 : tbl.rows.find? (fun q => q.id == id) = some r := hfind
    have hrid : r.id = id := by simpa using List.find?_some hfind2
    have hno : tbl.rows.any (fun q => q.id != id && q.kode_prodi == p.kode_prodi) = false := by
      refine List.any_eq_false.2 (fun q hq => ?_)
      by_cases hqid : q.id = id
      · simp [hqid]
      · simp [hqid, hnodup q hq hqid]
    have hupd : updateProdi id p tbl = .ok { tbl with
        rows := tbl.rows.map (fun x => if x.id == id then { x with
          kode_prodi := p.kode_prodi, nama_prodi := p.nama_prodi, fakultas := p.fakultas,
          akreditasi := jsOrNull p.akreditasi, deskripsi := jsOrNull p.deskripsi } else x) } := by
      unfold updateProdi
      rw [hno, Bool.and_false]
      rfl
    refine ⟨_, hupd, ?_⟩
    have hmap := find?_map_cond (fun x => x.id == id)
      (fun x => { x with
        kode_prodi := p.kode_prodi, nama_prodi := p.nama_prodi, fakultas := p.fakultas,
        akreditasi := jsOrNull p.akreditasi, deskripsi := jsOrNull p.deskripsi })
      (fun x => rfl) tbl.rows r hfind2
    show (tbl.rows.map _).find? _ = _
    rw [hmap]
    cases r
    simp_all
  · intro f id tbl r hfind hnodup
    have hfind2 : tbl.rows.find? (fun q => q.id == id) = some r := hfind
    have hrid : r.id = id := by simpa using List.find?_some hfind2
    have hno : tbl.rows.any
        (fun q => q.id != id && q.kode_fakultas == f.kode_fakultas) = false := by
      refine List.any_eq_false.2 (fun q hq => ?_)
      by_cases hqid : q.id = id
      · simp [hqid]
      · simp [hqid, hnodup q hq hqid]
    have hupd : updateFakultas id f tbl = .ok { tbl with
        rows := tbl.rows.map (fun x => if x.id == id then { x with
          kode_fakultas := f.kode_fakultas, nama_fakultas := f.nama_fakultas,
          deskripsi := jsOrNull f.deskripsi } else x) } := by
      unfold updateFakultas
      rw [hno, Bool.and_false]
      rfl
    refine ⟨_, hupd, ?_⟩
    have hmap := find?_map_cond (fun x => x.id == id)
      (fun x => { x with
        kode_fakultas := f.kode_fakultas, nama_fakultas := f.nama_fakultas,
        deskripsi := jsOrNull f.deskripsi })
      (fun x => rfl) tbl.rows r hfind2
    show (tbl.rows.map _).find? _ = _
    rw [hmap]
    cases r
    simp_all
  · intro m id tbl r hfind hnodup
    have hfind2 : tbl.rows.find? (fun q => q.id == id) = some r := hfind
    have hrid : r.id = id := by simpa using List.find?_some hfind2
    have hno : tbl.rows.any (fun q => q.id != id && q.nim == m.nim) = false := by
      refine List.any_eq_false.2 (fun q hq => ?_)
      by_cases hqid : q.id = id
      · simp [hqid]
      · simp [hqid, hnodup q hq hqid]
    have hupd : updateMahasiswa id m tbl = .ok { tbl with
        rows := tbl.rows.map (fun x => if x.id == id then { x with
          nim := m.nim, nama := m.nama, jurusan := m.jurusan,
          fakultas := m.fakultas, semester := m.semester, email := m.email } else x) } := by
      unfold updateMahasiswa
      rw [hno, Bool.and_false]
      rfl
    refine ⟨_, hupd, ?_⟩
    have hmap := find?_map_cond (fun x => x.id == id)
      (fun x => { x with
        nim := m.nim, nama := m.nama, jurusan := m.jurusan,
        fakultas := m.fakultas, semester := m.semester, email := m.email })
      (fun x => rfl) tbl.rows r hfind2
    show (tbl.rows.map _).find? _ = _
    rw [hmap]
    cases r
    simp_all

def c6PInput : ProdiInput := ⟨"MI", "Manajemen Informatika", "FT", none, some ""⟩

def c6PTbl1 : ProdiTable :=
  ⟨[⟨0, "TI", "Teknik Informatika", "FT", some "A", some "x", "2024-01-01"⟩], 1⟩

def c6FTbl1 : FakultasTable := ⟨[⟨0, "FT", "Fakultas Teknik", some "x", "2024-01-01"⟩], 1⟩

def c6FInput2 : FakultasInput := ⟨"FT", "Fakultas Teknik", some ""⟩

def c6MTbl1 : MahasiswaTable :=
  ⟨[⟨0, "300", "Dewi", "TI", some "FT", 1, "dewi@x.id", "2024-01-01"⟩], 1⟩

def c6MInput2 : MahasiswaInput := ⟨"300", "Dewi", "TI", some "", 1, "dewi@x.id"⟩

/-- C6 witness: a program insert supplying no accreditation and an empty
description stores NULL for both; program and faculty updates supplying an
empty-string optional field overwrite the stored value with NULL; a student
update supplying the empty string for the faculty field stores it
verbatim. -/
theorem optional_fields_nullability_witness :
    (⟨[], 1⟩ : ProdiTable).WF ∧
    (∃ tbl2, addProdi c6PInput "2024-01-01" (⟨[], 1⟩ : ProdiTable) = .ok (1, tbl2) ∧
      getProdiById 1 tbl2 =
        some ⟨1, "MI", "Manajemen Informatika", "FT", jsOrNull c6PInput.akreditasi,
          jsOrNull c6PInput.deskripsi, "2024-01-01"⟩) ∧
    jsOrNull c6PInput.akreditasi = none ∧
    jsOrNull c6PInput.deskripsi = none ∧
    (∃ tbl2, updateProdi 0 c6PInput c6PTbl1 = .ok tbl2 ∧
      getProdiById 0 tbl2 =
        some ⟨0, "MI", "Manajemen Informatika", "FT", jsOrNull c6PInput.akreditasi,
          jsOrNull c6PInput.deskripsi, "2024-01-01"⟩) ∧
    (∃ tbl2, updateFakultas 0 c6FInput2 c6FTbl1 = .ok tbl2 ∧
      getFakultasById 0 tbl2 =
        some ⟨0, "FT", "Fakultas Teknik", jsOrNull c6FInput2.deskripsi, "2024-01-01"⟩) ∧
    jsOrNull c6FInput2.deskripsi = none ∧
    (∃ tbl2, updateMahasiswa 0 c6MInput2 c6MTbl1 = .ok tbl2 ∧
      getMahasiswaById 0 tbl2 =
        some ⟨0, "300", "Dewi", "TI", some "", 1, "dewi@x.id", "2024-01-01"⟩) := by
  have h := optional_fields_nullability
  refine ⟨by decide, ?_, rfl, rfl, ?_, ?_, rfl, ?_⟩
  · exact h.2.2.1 c6PInput "2024-01-01" ⟨[], 1⟩ (by decide) (by decide)
  · exact h.2.2.2.2.2.1 c6PInput 0 c6PTbl1
      ⟨0, "TI", "Teknik Informatika", "FT", some "A", some "x", "2024-01-01"⟩
      (by decide) (by decide)
  · exact h.2.2.2.2.2.2.1 c6FInput2 0 c6FTbl1
      ⟨0, "FT", "Fakultas Teknik", some "x", "2024-01-01"⟩ (by decide) (by decide)
  · exact h.2.2.2.2.2.2.2 c6MInput2 0 c6MTbl1
      ⟨0, "300", "Dewi", "TI", some "FT", 1, "dewi@x.id", "2024-01-01"⟩
      (by decide) (by decide)

/-! ### Claim C7: authentication -/

/-- C7: `authenticateUser` succeeds with exactly the record found by the
lowercased-email lookup when the supplied password equals the stored secret
under plain string equality, and returns `none` both when no user matches
the lowercased email and when the password differs; the lookup itself is a
first-match scan on `email = input.toLowerCase()`. -/
theorem authenticateUser_contract :
    (∀ (e q : String) (tbl : UsersTable) (u : UserRow),
      authenticateUser e q tbl = some u ↔
        (getUserByEmail e tbl = some u ∧ u.password = q)) ∧
    (∀ (e q : String) (tbl : UsersTable),
      authenticateUser e q tbl = none ↔
        (getUserByEmail e tbl = none ∨
          ∃ u, getUserByEmail e tbl = some u ∧ u.password ≠ q)) ∧
    (∀ (e : String) (tbl : UsersTable),
      getUserByEmail e tbl = tbl.rows.find? (fun r => r.email == String.toLower e)) := by
  refine ⟨?_, ?_, ?_⟩
  · intro e q tbl u
    unfold authenticateUser
    cases hg : getUserByEmail e tbl with
    | none =>
      constructor
      · intro hc
        exact absurd hc (by simp)
      · intro hb
        exact absurd hb.1 (by simp)
    | some v =>
      show (if (v.password == q) = true then some v else none) = some u ↔ _
      cases hb : (v.password == q) with
      | true =>
        have hpw : v.password = q := by simpa using hb
        rw [if_pos rfl]
        constructor
        · intro hv
          refine ⟨hv, ?_⟩
          rw [← Option.some.inj hv, hpw]
        · intro hb2
          exact hb2.1
      | false =>
        have hpw : v.password ≠ q := by simpa using hb
        rw [if_neg (by simp)]
        constructor
        · intro hc
          exact absurd hc (by simp)
        · intro hb2
          rw [← Option.some.inj hb2.1] at hb2
          exact absurd hb2.2 hpw
  · intro e q tbl
    unfold authenticateUser
    cases hg : getUserByEmail e tbl with
    | none => simp
    | some v =>
      show (if (v.password == q) = true then some v else none) = none ↔ _
      cases hb : (v.password == q) with
      | true =>
        have hpw : v.password = q := by simpa using hb
        rw [if_pos rfl]
        constructor
        · intro hc
          exact absurd hc (by simp)
        · rintro (hc | ⟨u, hu, hq⟩)
          · exact absurd hc (by simp)
          · rw [← Option.some.inj hu] at hq
            exact absurd hpw hq
      | false =>
        have hpw : v.password ≠ q := by simpa using hb
        rw [if_neg (by simp)]
        exact ⟨fun _ => Or.inr ⟨v, rfl, hpw⟩, fun _ => rfl⟩
  · intro e tbl
    rfl

end BelajarDB
